import Mathlib

/-!
Shallow embedding of the authentication module of kerb-sts
(src/kerb_sts/auth.py).

The module defines four authentication strategies: ambient Kerberos and
password Kerberos (both realised by the KerberosAuthenticator class),
NTLM (NtlmAuthenticator), and keytab Kerberos (KeytabAuthenticator).
The only effectful part is construction, which may invoke external
processes (pexpect.spawn and subprocess.check_output), write log
messages, and set a process environment variable.  We model those
effects as an explicit event trace, and the outside world (exit status
of each spawned command, the operating system name, the current working
directory, the initial process environment) as an explicit oracle.
Exceptions raised by a constructor are modelled with Except: an error
value means the Python constructor raised and no object was produced.
-/

namespace KerbSts

/-- One observable side effect of the Python code:
a pexpect.spawn call (with the lines later sent to its stdin),
a subprocess.check_output call, a logging.error or logging.info call,
or an assignment to os.environ. -/
inductive Event where
  | spawn (argv : List String) (stdinLines : List String)
  | checkOutput (argv : List String)
  | logError (msg : String)
  | logInfo (msg : String)
  | setEnv (key value : String)
deriving Repr, DecidableEq

/-- The outside world as seen by auth.py: the exit status returned by
each external command (keyed by its argument vector), the value of
os.name, the value of os.getcwd(), and the initial os.environ. -/
structure Env where
  exit : List String → Nat
  osName : String
  cwd : String
  environ : List (String × String)

/-- Python truthiness of an optional string argument: None and the
empty string are falsy, every other string is truthy. -/
def pyTruthy : Option String → Bool
  | none => false
  | some s => s != ""

/-- Line 45 of auth.py: self.kerb_hostname = kerb_hostname if kerb_hostname else None. -/
def normalizeHostname (kerb_hostname : Option String) : Option String :=
  if pyTruthy kerb_hostname then kerb_hostname else none

/-- Helper for splitting a pexpect command string into an argument
vector: accumulate characters of the current word (reversed) and emit a
word at each space. -/
def splitWordsAux : List Char → List Char → List (List Char)
  | [], acc => if acc.isEmpty then [] else [acc.reverse]
  | c :: cs, acc =>
    if c = ' ' then
      if acc.isEmpty then splitWordsAux cs [] else acc.reverse :: splitWordsAux cs []
    else splitWordsAux cs (c :: acc)

/-- The argument vector of a command handed to pexpect.spawn as a
single string: pexpect splits the command on whitespace (the commands
built by auth.py contain no quoting). -/
def spawnArgs (cmd : String) : List String :=
  (splitWordsAux cmd.data []).map fun l => String.mk l

/-- Does the character list hay start with the character list needle. -/
def startsWithChars : List Char → List Char → Bool
  | _, [] => true
  | [], _ :: _ => false
  | h :: hs, n :: ns => h = n && startsWithChars hs ns

/-- Does the character list hay contain needle as a contiguous run. -/
def hasSubstrChars : List Char → List Char → Bool
  | [], needle => needle.isEmpty
  | h :: hs, needle => startsWithChars (h :: hs) needle || hasSubstrChars hs needle

/-- Substring test (is needle a contiguous substring of hay). -/
def containsStr (hay needle : String) : Bool :=
  hasSubstrChars hay.data needle.data

/-- Mutual-authentication modes of requests_kerberos; auth.py always
passes OPTIONAL. -/
inductive MutualAuth where
  | required
  | optional
  | disabled
deriving Repr, DecidableEq

/-- The handler object built by requests_kerberos.HTTPKerberosAuth, as
far as auth.py configures it. -/
structure HTTPKerberosAuth where
  mutual_authentication : MutualAuth
  hostname_override : Option String
deriving Repr, DecidableEq

/-- The handler object built by requests_ntlm.HttpNtlmAuth from an
identity string, a password, and the caller-supplied session object
(of an opaque type σ). -/
structure HttpNtlmAuth (σ : Type) where
  identity : String
  password : String
  session : σ
deriving Repr, DecidableEq

/-- State of a constructed KerberosAuthenticator: the only attribute
set by its constructor is self.kerb_hostname. -/
structure KerberosAuthenticator where
  kerb_hostname : Option String
deriving Repr, DecidableEq

/-- Lines 52 to 64 of auth.py,
KerberosAuthenticator.__generate_kerberos_ticket_for_user:
build the principal string, spawn the command string
kinit followed by the principal via pexpect, send the password to the
spawned tool's stdin, wait, and on non-zero exit status raise after
logging an error (the logging call passes the format string without
calling format on it, so the logged message ends in a literal pair of
braces instead of the principal). -/
def generateKerberosTicketForUser (env : Env) (username password domain : String) :
    Except String Unit × List Event :=
  let principal := username ++ "@" ++ domain
  let argv := spawnArgs ("kinit " ++ principal)
  let spawnEv := Event.spawn argv [password]
  if env.exit argv = 0 then
    (Except.ok (), [spawnEv])
  else
    (Except.error ("failed to generate a kerberos ticket for principal " ++ principal),
     [spawnEv, Event.logError "failed to generate a kerberos ticket for principal \x7b\x7d"])

/-- Lines 66 to 78 of auth.py,
KerberosAuthenticator.__generate_kerberos_ticket: run klist -s; if it
exits non-zero (subprocess.check_output raises CalledProcessError),
log an info message and run kinit with no arguments; if that also
exits non-zero, log an error and re-raise. -/
def generateKerberosTicket (env : Env) : Except String Unit × List Event :=
  if env.exit ["klist", "-s"] = 0 then
    (Except.ok (), [Event.checkOutput ["klist", "-s"]])
  else
    let evs := [Event.checkOutput ["klist", "-s"],
                Event.logInfo "no kerberos ticket found. running kinit",
                Event.checkOutput ["kinit"]]
    if env.exit ["kinit"] = 0 then
      (Except.ok (), evs)
    else
      (Except.error "subprocess.CalledProcessError: kinit",
       evs ++ [Event.logError "failed to generate a kerberos ticket"])

/-- Lines 44 to 50 of auth.py, KerberosAuthenticator.__init__:
normalize the hostname override (falsy becomes None), then take the
per-user path if a truthy username was supplied and the ambient path
otherwise.  An error value means the constructor raised. -/
def KerberosAuthenticator.init (env : Env) (kerb_hostname username : Option String)
    (password domain : String) : Except String KerberosAuthenticator × List Event :=
  let kh := normalizeHostname kerb_hostname
  if pyTruthy username then
    match generateKerberosTicketForUser env (username.getD "") password domain with
    | (Except.ok _, evs) => (Except.ok ⟨kh⟩, evs)
    | (Except.error e, evs) => (Except.error e, evs)
  else
    match generateKerberosTicket env with
    | (Except.ok _, evs) => (Except.ok ⟨kh⟩, evs)
    | (Except.error e, evs) => (Except.error e, evs)

/-- Lines 80 and 81 of auth.py: return
HTTPKerberosAuth(mutual_authentication=OPTIONAL, hostname_override=self.kerb_hostname).
The method performs no external-process call and no state change, so
its event trace is empty and the session argument is unused (as in the
source). -/
def KerberosAuthenticator.get_auth_handler {σ : Type} (a : KerberosAuthenticator)
    (_session : σ) : HTTPKerberosAuth × List Event :=
  (⟨MutualAuth.optional, a.kerb_hostname⟩, [])

/-- Line 85 of auth.py. -/
def KerberosAuthenticator.get_auth_type : String := "kerberos"

/-- State of a constructed NtlmAuthenticator (lines 94 to 97). -/
structure NtlmAuthenticator where
  username : String
  password : String
  domain : String
deriving Repr, DecidableEq

/-- Lines 94 to 97 of auth.py, NtlmAuthenticator.__init__: store the
three inputs; nothing external is invoked and nothing can fail. -/
def NtlmAuthenticator.init (username password domain : String) :
    Except String NtlmAuthenticator × List Event :=
  (Except.ok ⟨username, password, domain⟩, [])

/-- Lines 99 to 104 of auth.py: build HttpNtlmAuth from the identity
string domain backslash username, the stored password, and the
caller-supplied session object. -/
def NtlmAuthenticator.get_auth_handler {σ : Type} (a : NtlmAuthenticator) (session : σ) :
    HttpNtlmAuth σ × List Event :=
  (⟨a.domain ++ "\\" ++ a.username, a.password, session⟩, [])

/-- Line 108 of auth.py. -/
def NtlmAuthenticator.get_auth_type : String := "ntlm"

/-- Does a path string end with the path separator. -/
def endsWithSep (a : String) : Bool :=
  a.data.getLast? = some '/'

/-- os.path.join for the one call site in auth.py (joining the current
working directory with the relative name credentials_cache): append a
path separator unless one is already present. -/
def ospathjoin (a b : String) : String :=
  if endsWithSep a then a ++ b else a ++ "/" ++ b

/-- State of a constructed KeytabAuthenticator (lines 118 to 121). -/
structure KeytabAuthenticator where
  username : String
  keytab : String
  domain : String
deriving Repr, DecidableEq

/-- The argument vector of the kinit call made by
KeytabAuthenticator.__init__ (lines 131 and 132). -/
def keytabArgv (env : Env) (username keytab domain : String) : List String :=
  ["kinit", "-c", ospathjoin env.cwd "credentials_cache", "-kt", keytab,
   username ++ "@" ++ domain]

/-- Lines 117 to 135 of auth.py, KeytabAuthenticator.__init__: store
the inputs; raise on Windows (os.name equal to nt) before doing
anything else; otherwise compute the credentials cache path, set
os.environ KRB5CCNAME to it, and run kinit with the cache flag, the
keytab flag and the principal; non-zero exit raises. -/
def KeytabAuthenticator.init (env : Env) (username keytab domain : String) :
    Except String KeytabAuthenticator × List Event :=
  if env.osName = "nt" then
    (Except.error "keytab is not supported on Windows!", [])
  else
    let cache := ospathjoin env.cwd "credentials_cache"
    let argv := keytabArgv env username keytab domain
    let evs := [Event.setEnv "KRB5CCNAME" cache, Event.checkOutput argv]
    if env.exit argv = 0 then
      (Except.ok ⟨username, keytab, domain⟩, evs)
    else
      (Except.error "could not generate a valid ticket for the given keytab", evs)

/-- Lines 137 and 138 of auth.py: return
HTTPKerberosAuth(mutual_authentication=OPTIONAL) with no hostname
override; no external-process call, no state change. -/
def KeytabAuthenticator.get_auth_handler {σ : Type} (_a : KeytabAuthenticator)
    (_session : σ) : HTTPKerberosAuth × List Event :=
  (⟨MutualAuth.optional, none⟩, [])

/-- Line 142 of auth.py. -/
def KeytabAuthenticator.get_auth_type : String := "keytab"

/-- Effect of one event on the process environment: only setEnv
changes os.environ. -/
def applyEvent (environ : List (String × String)) : Event → List (String × String)
  | Event.setEnv k v => (k, v) :: environ.filter fun p => p.1 ≠ k
  | _ => environ

/-- The process environment after a trace of events. -/
def applyEvents (environ : List (String × String)) (evs : List Event) :
    List (String × String) :=
  evs.foldl applyEvent environ

/-- Look an environment variable up. -/
def getEnvVar (environ : List (String × String)) (k : String) : Option String :=
  (environ.find? fun p => p.1 = k).map Prod.snd

/-- Does this event invoke the ticket-init tool (kinit), whether
through pexpect or through subprocess. -/
def invokesTicketInit : Event → Bool
  | Event.spawn argv _ => argv.head? = some "kinit"
  | Event.checkOutput argv => argv.head? = some "kinit"
  | _ => false

/-- A world in which every external command succeeds. -/
def envAllOk : Env :=
  { exit := fun _ => 0, osName := "posix", cwd := "/home/user", environ := [] }

/-- A world in which every external command fails with exit status 1. -/
def envAllFail : Env :=
  { exit := fun _ => 1, osName := "posix", cwd := "/home/user", environ := [] }

/-- A world in which the ticket check fails but bare kinit succeeds. -/
def envNoTicket : Env :=
  { exit := fun argv => if argv = ["kinit"] then 0 else 1,
    osName := "posix", cwd := "/home/user", environ := [] }

/-- A Windows world. -/
def envWindows : Env :=
  { exit := fun _ => 0, osName := "nt", cwd := "C:/work", environ := [] }

/-! Helper lemmas about command-string splitting and traces. -/

theorem splitWordsAux_noSpace (l : List Char) :
    ∀ acc : List Char, (∀ c ∈ l, c ≠ ' ') → acc ≠ [] →
      splitWordsAux l acc = [acc.reverse ++ l] := by
  induction l with
  | nil =>
    intro acc _ hacc
    match acc, hacc with
    | a :: as, _ => simp [splitWordsAux]
  | cons c cs ih =>
    intro acc hns hacc
    have hc : c ≠ ' ' := hns c (List.mem_cons_self c cs)
    have hstep : splitWordsAux (c :: cs) acc = splitWordsAux cs (c :: acc) := by
      simp [splitWordsAux, hc]
    rw [hstep, ih (c :: acc) (fun x hx => hns x (List.mem_cons_of_mem c hx)) (by simp)]
    simp

theorem splitWordsAux_nil_noSpace (l : List Char) (hne : l ≠ [])
    (hns : ∀ c ∈ l, c ≠ ' ') : splitWordsAux l [] = [l] := by
  match l, hne with
  | c :: cs, _ =>
    have hc : c ≠ ' ' := hns c (List.mem_cons_self c cs)
    have hstep : splitWordsAux (c :: cs) [] = splitWordsAux cs [c] := by
      simp [splitWordsAux, hc]
    rw [hstep,
      splitWordsAux_noSpace cs [c] (fun x hx => hns x (List.mem_cons_of_mem c hx)) (by simp)]
    simp

theorem spawnArgs_kinit (s : String) (hne : s ≠ "") (hns : ∀ c ∈ s.data, c ≠ ' ') :
    spawnArgs ("kinit " ++ s) = ["kinit", s] := by
  have hdata : ("kinit " ++ s).data = 'k' :: 'i' :: 'n' :: 'i' :: 't' :: ' ' :: s.data := by
    rw [String.data_append]
    rfl
  have hstep : splitWordsAux ('k' :: 'i' :: 'n' :: 'i' :: 't' :: ' ' :: s.data) []
      = ['k', 'i', 'n', 'i', 't'] :: splitWordsAux s.data [] := rfl
  have hsd : s.data ≠ [] := by
    intro h
    exact hne (congrArg String.mk h)
  unfold spawnArgs
  rw [hdata, hstep, splitWordsAux_nil_noSpace s.data hsd hns]
  rfl

theorem init_user_trace (env : Env) (kh : Option String) (u p d : String) (hu : u ≠ "") :
    (KerberosAuthenticator.init env kh (some u) p d).2
      = (generateKerberosTicketForUser env u p d).2 := by
  have hcall : KerberosAuthenticator.init env kh (some u) p d
      = match generateKerberosTicketForUser env u p d with
        | (Except.ok _, evs) => (Except.ok ⟨normalizeHostname kh⟩, evs)
        | (Except.error e, evs) => (Except.error e, evs) := by
    unfold KerberosAuthenticator.init
    simp [pyTruthy, hu]
  rw [hcall]
  rcases generateKerberosTicketForUser env u p d with ⟨res, evs⟩
  cases res <;> rfl

theorem generateForUser_trace (env : Env) (u p d : String) :
    (generateKerberosTicketForUser env u p d).2
      = Event.spawn (spawnArgs ("kinit " ++ (u ++ "@" ++ d))) [p]
          :: (if env.exit (spawnArgs ("kinit " ++ (u ++ "@" ++ d))) = 0 then []
              else [Event.logError
                "failed to generate a kerberos ticket for principal \x7b\x7d"]) := by
  unfold generateKerberosTicketForUser
  by_cases h : env.exit (spawnArgs ("kinit " ++ (u ++ "@" ++ d))) = 0 <;> simp [h]

theorem principal_data (u d : String) :
    (u ++ "@" ++ d).data = u.data ++ '@' :: d.data := by
  rw [String.data_append, String.data_append]
  simp

theorem principal_ne_empty (u d : String) : u ++ "@" ++ d ≠ "" := by
  intro h
  have h2 := congrArg String.data h
  rw [principal_data] at h2
  simp at h2

theorem principal_noSpace (u d : String) (hnsu : ∀ c ∈ u.data, c ≠ ' ')
    (hnsd : ∀ c ∈ d.data, c ≠ ' ') : ∀ c ∈ (u ++ "@" ++ d).data, c ≠ ' ' := by
  intro c hc
  rw [principal_data] at hc
  rcases List.mem_append.mp hc with h | h
  · exact hnsu c h
  · rcases List.mem_cons.mp h with h | h
    · subst h; decide
    · exact hnsd c h

/-! The claims. -/

/-- C1 counterexample: the claim quantifies over every password value,
but when the password happens to occur inside the principal (here the
password equals the username alice), the single argument of the
spawned ticket-init command, alice@EXAMPLE.COM, does contain the
password as a literal substring, even though the password is only ever
delivered through the interactive input. -/
theorem C1_counterexample :
    (KerberosAuthenticator.init envAllOk none (some "alice") "alice" "EXAMPLE.COM").2
        = [Event.spawn ["kinit", "alice@EXAMPLE.COM"] ["alice"]]
      ∧ containsStr "alice@EXAMPLE.COM" "alice" = true :=
  ⟨rfl, rfl⟩

/-- C1 (amended): for PasswordKerberos construction with a non-empty
username and a username and domain free of spaces, the trace starts
with exactly one external invocation, a spawn of the ticket-init tool
with the single positional argument username@domain — an argument
vector that does not depend on the password — and the password is
delivered only as the sole interactive input line; no other external
process is invoked. -/
theorem C1_amended_spawn_shape (env : Env) (kh : Option String) (u p d : String)
    (hu : u ≠ "") (hnsu : ∀ c ∈ u.data, c ≠ ' ') (hnsd : ∀ c ∈ d.data, c ≠ ' ') :
    ∃ rest : List Event,
      (KerberosAuthenticator.init env kh (some u) p d).2
          = Event.spawn ["kinit", u ++ "@" ++ d] [p] :: rest
        ∧ ∀ e ∈ rest, (∀ argv stdinLines, e ≠ Event.spawn argv stdinLines)
            ∧ ∀ argv, e ≠ Event.checkOutput argv := by
  rw [init_user_trace env kh u p d hu, generateForUser_trace,
    spawnArgs_kinit (u ++ "@" ++ d) (principal_ne_empty u d) (principal_noSpace u d hnsu hnsd)]
  by_cases h : env.exit ["kinit", u ++ "@" ++ d] = 0 <;> simp [h]

/-- C1 witness: the amended statement evaluated with username alice,
password secret, domain EXAMPLE.COM in a world where kinit succeeds. -/
theorem C1_witness :
    ∃ rest : List Event,
      (KerberosAuthenticator.init envAllOk none (some "alice") "secret" "EXAMPLE.COM").2
          = Event.spawn ["kinit", "alice" ++ "@" ++ "EXAMPLE.COM"] ["secret"] :: rest
        ∧ ∀ e ∈ rest, (∀ argv stdinLines, e ≠ Event.spawn argv stdinLines)
            ∧ ∀ argv, e ≠ Event.checkOutput argv :=
  C1_amended_spawn_shape envAllOk none "alice" "secret" "EXAMPLE.COM"
    (by decide) (by decide) (by decide)

/-- C2: for ambient construction (no username), if klist -s exits with
status zero then construction succeeds and no event of the trace
invokes the ticket-init tool. -/
theorem C2_ambient_check_ok (env : Env) (kh : Option String) (p d : String)
    (hcheck : env.exit ["klist", "-s"] = 0) :
    (∃ a, (KerberosAuthenticator.init env kh none p d).1 = Except.ok a)
      ∧ ∀ e ∈ (KerberosAuthenticator.init env kh none p d).2,
          invokesTicketInit e = false := by
  unfold KerberosAuthenticator.init generateKerberosTicket
  simp [pyTruthy, hcheck, invokesTicketInit]

/-- C2 witness: the statement evaluated in a world where every command
succeeds. -/
theorem C2_witness :
    (∃ a, (KerberosAuthenticator.init envAllOk (some "host") none "p" "d").1 = Except.ok a)
      ∧ ∀ e ∈ (KerberosAuthenticator.init envAllOk (some "host") none "p" "d").2,
          invokesTicketInit e = false :=
  C2_ambient_check_ok envAllOk (some "host") "p" "d" rfl

/-- C3: for ambient construction, if klist -s exits non-zero then the
fallback kinit with no arguments is always invoked; if that fallback
also exits non-zero, construction returns an error (no handler) and
the only message ever logged at error level concerns the failed init,
never the failed check; if the fallback succeeds, construction
succeeds and nothing at all is logged at error level. -/
theorem C3_ambient_fallback_fatal (env : Env) (kh : Option String) (p d : String)
    (hcheck : env.exit ["klist", "-s"] ≠ 0) :
    Event.checkOutput ["kinit"] ∈ (KerberosAuthenticator.init env kh none p d).2
      ∧ (env.exit ["kinit"] ≠ 0 →
          (∃ msg, (KerberosAuthenticator.init env kh none p d).1 = Except.error msg)
            ∧ ∀ m, Event.logError m ∈ (KerberosAuthenticator.init env kh none p d).2 →
                m = "failed to generate a kerberos ticket")
      ∧ (env.exit ["kinit"] = 0 →
          (∃ a, (KerberosAuthenticator.init env kh none p d).1 = Except.ok a)
            ∧ ∀ m, Event.logError m ∉ (KerberosAuthenticator.init env kh none p d).2) := by
  unfold KerberosAuthenticator.init generateKerberosTicket
  by_cases hinit : env.exit ["kinit"] = 0 <;> simp [pyTruthy, hcheck, hinit]

/-- C3 witness: the statement evaluated, with its inner hypotheses
discharged, in a world where every command fails. -/
theorem C3_witness :
    Event.checkOutput ["kinit"] ∈ (KerberosAuthenticator.init envAllFail none none "p" "d").2
      ∧ (∃ msg, (KerberosAuthenticator.init envAllFail none none "p" "d").1 = Except.error msg)
      ∧ ∀ m, Event.logError m ∈ (KerberosAuthenticator.init envAllFail none none "p" "d").2 →
          m = "failed to generate a kerberos ticket" := by
  have h := C3_ambient_fallback_fatal envAllFail none "p" "d" (by decide)
  exact ⟨h.1, (h.2.1 (by decide)).1, (h.2.1 (by decide)).2⟩

/-- C4 (code bug): with username alice, domain EXAMPLE.COM and a
failing ticket-init tool, the constructor does raise an exception that
references the principal, but the message logged at error level is the
unformatted literal ending in a pair of braces — auth.py line 62
passes the format string to logging.error without calling format on
it — so the logged error does not describe the failing principal as
the claim requires. -/
theorem C4_log_missing_principal :
    (KerberosAuthenticator.init envAllFail none (some "alice") "secret" "EXAMPLE.COM").1
        = Except.error "failed to generate a kerberos ticket for principal alice@EXAMPLE.COM"
      ∧ (KerberosAuthenticator.init envAllFail none (some "alice") "secret" "EXAMPLE.COM").2
        = [Event.spawn ["kinit", "alice@EXAMPLE.COM"] ["secret"],
           Event.logError "failed to generate a kerberos ticket for principal \x7b\x7d"]
      ∧ containsStr "failed to generate a kerberos ticket for principal \x7b\x7d"
          "alice@EXAMPLE.COM" = false :=
  ⟨rfl, rfl, by decide⟩

/-- C5: for Keytab construction on a non-Windows platform, the trace
sets KRB5CCNAME to the fixed filename credentials_cache joined to the
current working directory (so that value is what a later environment
lookup returns), and invokes the ticket-init tool with the cache flag
and that path, the keytab flag and the given keytab path, and the
positional principal username@domain. -/
theorem C5_keytab_invocation (env : Env) (u kt d : String) (hos : env.osName ≠ "nt") :
    Event.setEnv "KRB5CCNAME" (ospathjoin env.cwd "credentials_cache")
        ∈ (KeytabAuthenticator.init env u kt d).2
      ∧ Event.checkOutput
            ["kinit", "-c", ospathjoin env.cwd "credentials_cache", "-kt", kt,
             u ++ "@" ++ d]
          ∈ (KeytabAuthenticator.init env u kt d).2
      ∧ getEnvVar (applyEvents env.environ (KeytabAuthenticator.init env u kt d).2)
          "KRB5CCNAME" = some (ospathjoin env.cwd "credentials_cache") := by
  unfold KeytabAuthenticator.init keytabArgv
  by_cases h : env.exit
      ["kinit", "-c", ospathjoin env.cwd "credentials_cache", "-kt", kt, u ++ "@" ++ d]
      = 0 <;>
    simp [hos, h, applyEvents, applyEvent, getEnvVar]

/-- C5 witness: the statement evaluated in a succeeding world. -/
theorem C5_witness :
    Event.setEnv "KRB5CCNAME" (ospathjoin envAllOk.cwd "credentials_cache")
        ∈ (KeytabAuthenticator.init envAllOk "alice" "/etc/krb5.keytab" "EXAMPLE.COM").2
      ∧ Event.checkOutput
            ["kinit", "-c", ospathjoin envAllOk.cwd "credentials_cache", "-kt",
             "/etc/krb5.keytab", "alice" ++ "@" ++ "EXAMPLE.COM"]
          ∈ (KeytabAuthenticator.init envAllOk "alice" "/etc/krb5.keytab" "EXAMPLE.COM").2
      ∧ getEnvVar
          (applyEvents envAllOk.environ
            (KeytabAuthenticator.init envAllOk "alice" "/etc/krb5.keytab" "EXAMPLE.COM").2)
          "KRB5CCNAME" = some (ospathjoin envAllOk.cwd "credentials_cache") :=
  C5_keytab_invocation envAllOk "alice" "/etc/krb5.keytab" "EXAMPLE.COM" (by decide)

/-- C6: for Keytab construction on Windows (os.name equal to nt),
construction returns the unsupported-platform error and the trace is
empty: no process is spawned and no environment variable is set. -/
theorem C6_keytab_windows (env : Env) (u kt d : String) (hos : env.osName = "nt") :
    KeytabAuthenticator.init env u kt d
      = (Except.error "keytab is not supported on Windows!", []) := by
  unfold KeytabAuthenticator.init
  simp [hos]

/-- C6 witness: the statement evaluated in the Windows world. -/
theorem C6_witness :
    KeytabAuthenticator.init envWindows "alice" "/etc/krb5.keytab" "EXAMPLE.COM"
      = (Except.error "keytab is not supported on Windows!", []) :=
  C6_keytab_windows envWindows "alice" "/etc/krb5.keytab" "EXAMPLE.COM" rfl

/-- C7 counterexample: in a world with an empty initial environment
where the keytab kinit fails, Keytab construction raises, yet the
environment after the failed construction holds KRB5CCNAME where it
held nothing before — an observable local state change survives the
failure, contradicting the claim. -/
theorem C7_counterexample :
    (∃ msg, (KeytabAuthenticator.init envAllFail "alice" "/etc/krb5.keytab" "EXAMPLE.COM").1
        = Except.error msg)
      ∧ getEnvVar envAllFail.environ "KRB5CCNAME" = none
      ∧ getEnvVar
          (applyEvents envAllFail.environ
            (KeytabAuthenticator.init envAllFail "alice" "/etc/krb5.keytab" "EXAMPLE.COM").2)
          "KRB5CCNAME" = some "/home/user/credentials_cache" :=
  ⟨⟨"could not generate a valid ticket for the given keytab", rfl⟩, rfl, rfl⟩

/-- C7 (amended): construction of a PasswordKerberos, Ntlm, or Keytab
strategy either succeeds or raises, and when it raises no handler is
returned; Ntlm construction always succeeds with no side effect at
all, PasswordKerberos construction never touches the environment, but
a failed Keytab construction leaves KRB5CCNAME set to the computed
cache path — that environment change survives the failure. -/
theorem C7_amended_atomicity (env : Env) (kh : Option String) (u p d kt : String)
    (hu : u ≠ "") :
    ((NtlmAuthenticator.init u p d).1 = Except.ok ⟨u, p, d⟩
        ∧ (NtlmAuthenticator.init u p d).2 = [])
      ∧ (∀ e ∈ (KerberosAuthenticator.init env kh (some u) p d).2,
          ∀ k v, e ≠ Event.setEnv k v)
      ∧ (env.osName ≠ "nt" → env.exit (keytabArgv env u kt d) ≠ 0 →
          (∃ msg, (KeytabAuthenticator.init env u kt d).1 = Except.error msg)
            ∧ getEnvVar (applyEvents env.environ (KeytabAuthenticator.init env u kt d).2)
                "KRB5CCNAME" = some (ospathjoin env.cwd "credentials_cache")) := by
  refine ⟨⟨rfl, rfl⟩, ?_, ?_⟩
  · intro e he k v
    rw [init_user_trace env kh u p d hu, generateForUser_trace] at he
    by_cases h : env.exit (spawnArgs ("kinit " ++ (u ++ "@" ++ d))) = 0
    · simp [h] at he
      simp [he]
    · simp [h] at he
      rcases he with he | he <;> simp [he]
  · intro hos hexit
    unfold KeytabAuthenticator.init
    simp [hos, keytabArgv] at hexit ⊢
    simp [hexit, applyEvents, applyEvent, getEnvVar]

/-- C7 witness: the amended statement evaluated, with its hypotheses
discharged, in a world where every command fails. -/
theorem C7_witness :
    ((NtlmAuthenticator.init "alice" "secret" "EXAMPLE.COM").1
          = Except.ok ⟨"alice", "secret", "EXAMPLE.COM"⟩
        ∧ (NtlmAuthenticator.init "alice" "secret" "EXAMPLE.COM").2 = [])
      ∧ (∀ e ∈ (KerberosAuthenticator.init envAllFail none (some "alice") "secret"
            "EXAMPLE.COM").2, ∀ k v, e ≠ Event.setEnv k v)
      ∧ ((∃ msg, (KeytabAuthenticator.init envAllFail "alice" "secret" "EXAMPLE.COM").1
            = Except.error msg)
          ∧ getEnvVar
              (applyEvents envAllFail.environ
                (KeytabAuthenticator.init envAllFail "alice" "secret" "EXAMPLE.COM").2)
              "KRB5CCNAME" = some (ospathjoin envAllFail.cwd "credentials_cache")) := by
  have h := C7_amended_atomicity envAllFail none "alice" "secret" "EXAMPLE.COM" "secret"
    (by decide)
  exact ⟨h.1, h.2.1, h.2.2 (by decide) (by decide)⟩

/-- C8: NTLM construction invokes nothing external and only stores the
three inputs, and the handler is built from the identity string domain
backslash username, the stored password, and the caller-supplied
session object; in particular with username bob and domain CORP the
identity string is exactly CORP backslash bob. -/
theorem C8_ntlm_handler {σ : Type} (u p d : String) (s : σ) :
    NtlmAuthenticator.init u p d = (Except.ok ⟨u, p, d⟩, [])
      ∧ (NtlmAuthenticator.get_auth_handler ⟨u, p, d⟩ s).1 = ⟨d ++ "\\" ++ u, p, s⟩
      ∧ (NtlmAuthenticator.get_auth_handler ⟨u, p, d⟩ s).2 = []
      ∧ (NtlmAuthenticator.get_auth_handler ⟨"bob", p, "CORP"⟩ s).1.identity
        = "CORP\\bob" :=
  ⟨rfl, rfl, rfl, rfl⟩

/-- C9: for every constructed strategy of any variant, get_auth_handler
produces an empty event trace (so it never invokes an external ticket
tool and changes no state) and its value is determined by the stored
construction-time fields alone, so a second call returns an equal,
independently built handler instance. -/
theorem C9_get_auth_handler_pure {σ : Type} (a : KerberosAuthenticator)
    (n : NtlmAuthenticator) (k : KeytabAuthenticator) (s : σ) :
    (a.get_auth_handler s).2 = []
      ∧ (n.get_auth_handler s).2 = []
      ∧ (k.get_auth_handler s).2 = []
      ∧ (a.get_auth_handler s).1 = ⟨MutualAuth.optional, a.kerb_hostname⟩
      ∧ (n.get_auth_handler s).1 = ⟨n.domain ++ "\\" ++ n.username, n.password, s⟩
      ∧ (k.get_auth_handler s).1 = ⟨MutualAuth.optional, none⟩ :=
  ⟨rfl, rfl, rfl, rfl, rfl, rfl⟩

/-- C10: constructing a KerberosAuthenticator with an empty-string
username behaves exactly like constructing it with no username — the
ambient path runs and the password and domain arguments are ignored
entirely — and an empty-string hostname override is normalized to
none. -/
theorem C10_empty_username_ambient (env : Env) (kh : Option String)
    (p d p2 d2 : String) :
    KerberosAuthenticator.init env kh (some "") p d
        = KerberosAuthenticator.init env kh none p2 d2
      ∧ normalizeHostname (some "") = none :=
  ⟨rfl, rfl⟩

end KerbSts
